import Mathlib

/-!
Verification development for the NTP client core of this repository
(timestamp codec, offset/RTT calculator, packet codec, transport and
query engine).  The repository ships the test file for this component
(`TestShortConversion`, `TestLongConversion`, `TestOffsetCalculation`,
`TestOffsetCalculationNegative`, `TestQueryTimeout`, `TestTimeOrdering`,
`testQueryVersion`); the implementation itself is not part of the file
set, so the definitions below are modelled from the design document,
with durations and instants at nanosecond resolution (the resolution of
the instant type used by the tests) and all sub-nanosecond rounding
taken downward, as the design document and the tests require.
-/

namespace Ntp

/-- Nanoseconds in one second. -/
def nanoPerSec : Nat := 1000000000

/-- Modelled from the spec: the short fixed-point timestamp codec
(`durationFromShort`).  A 32-bit value, high 16 bits whole seconds, low
16 bits fractional seconds at 1/65536 s resolution; the result is the
duration in nanoseconds, with sub-nanosecond remainders rounded down. -/
def ntpShortDuration (x : Nat) : Nat :=
  x / 65536 * nanoPerSec + x % 65536 * nanoPerSec / 65536

/-- A second reading of the spec sentence "rounded toward the nearest
representable nanosecond", used only to compare against
`ntpShortDuration`: the fractional nanoseconds are rounded to nearest
(half away from zero) instead of truncated. -/
def ntpShortDurationNearest (x : Nat) : Nat :=
  x / 65536 * nanoPerSec + (x % 65536 * nanoPerSec + 32768) / 65536

/-- Modelled from the spec: the long fixed-point timestamp decoder
(`instantFromLong` / `Time()`).  A 64-bit value, high 32 bits whole
seconds since the protocol epoch (1900-01-01T00:00:00Z), low 32 bits
fractional seconds at 1/2^32 s resolution; the result is the instant as
nanoseconds since the protocol epoch, sub-nanosecond part rounded
down. -/
def instantFromLong (x : Nat) : Nat :=
  x / 4294967296 * nanoPerSec + x % 4294967296 * nanoPerSec / 4294967296

/-- Modelled from the spec: the long fixed-point timestamp encoder
(`longFromInstant`).  The instant is given as nanoseconds since the
protocol epoch; whole seconds land in the high 32 bits (wrapping at the
32-bit seconds boundary, as the wire field is 64 bits in total) and the
remaining nanoseconds are scaled to the 1/2^32 s fractional field,
rounded down. -/
def longFromInstant (n : Nat) : Nat :=
  n / nanoPerSec % 4294967296 * 4294967296 + n % nanoPerSec * 4294967296 / nanoPerSec

/-- The name the repository's tests use for `longFromInstant`. -/
def toNtpTime (n : Nat) : Nat :=
  longFromInstant n

/-- Modelled from the spec: the offset half of the pure offset/RTT
calculator, `offset = ((T2 - T1) + (T3 - T4)) / 2` over the four long
timestamps taken as instants, with the halving performed as floor
division (truncation toward negative infinity), as the design document
requires for negative sums. -/
def offset (t1 t2 t3 t4 : Nat) : Int :=
  Int.fdiv (((instantFromLong t2 : Int) - (instantFromLong t1 : Int)) +
    ((instantFromLong t3 : Int) - (instantFromLong t4 : Int))) 2

/-- Modelled from the spec: the RTT half of the pure offset/RTT
calculator, `rtt = (T4 - T1) - (T3 - T2)` over the four long timestamps
taken as instants. -/
def rtt (t1 t2 t3 t4 : Nat) : Int :=
  ((instantFromLong t4 : Int) - (instantFromLong t1 : Int)) -
    ((instantFromLong t3 : Int) - (instantFromLong t2 : Int))

/-- Modelled from the spec: the error kinds of the client
(`HostUnresolvable`, `SocketError`, `Timeout`, `MalformedPacket`). -/
inductive NtpError where
  | hostUnresolvable
  | socketError
  | timeout
  | malformedPacket
deriving DecidableEq, Repr

/-- Modelled from the spec: the decoded 48-byte packet header. -/
structure Packet where
  leap : Nat
  version : Nat
  mode : Nat
  stratum : Nat
  poll : Nat
  precision : Nat
  rootDelay : Nat
  rootDispersion : Nat
  referenceID : Nat
  refTime : Nat
  originTime : Nat
  receiveTime : Nat
  transmitTime : Nat
deriving DecidableEq, Repr

/-- Byte `i` of a payload (0 when out of range; every byte is reduced
modulo 256, so the readers are total on any list of naturals). -/
def byteAt (b : List Nat) (i : Nat) : Nat :=
  b.getD i 0 % 256

/-- Big-endian 32-bit field starting at byte `i`. -/
def get32 (b : List Nat) (i : Nat) : Nat :=
  byteAt b i * 16777216 + byteAt b (i + 1) * 65536 +
    byteAt b (i + 2) * 256 + byteAt b (i + 3)

/-- Big-endian 64-bit field starting at byte `i`. -/
def get64 (b : List Nat) (i : Nat) : Nat :=
  get32 b i * 4294967296 + get32 b (i + 4)

/-- Modelled from the spec: `decodeResponse` of the packet codec.  A
payload that is not exactly 48 bytes fails with `MalformedPacket`;
otherwise all header fields are extracted at the documented offsets
with no further semantic validation. -/
def decodeResponse (b : List Nat) : Except NtpError Packet :=
  if b.length = 48 then
    Except.ok
      { leap := byteAt b 0 / 64
        version := byteAt b 0 / 8 % 8
        mode := byteAt b 0 % 8
        stratum := byteAt b 1
        poll := byteAt b 2
        precision := byteAt b 3
        rootDelay := get32 b 4
        rootDispersion := get32 b 8
        referenceID := get32 b 12
        refTime := get64 b 16
        originTime := get64 b 24
        receiveTime := get64 b 32
        transmitTime := get64 b 40 }
  else Except.error NtpError.malformedPacket

/-- Modelled from the spec: the caller-supplied query configuration
(protocol version, destination port, total round-trip timeout in
nanoseconds, outgoing TTL, optional pinned local port). -/
structure QueryOptions where
  version : Nat
  port : Nat
  timeout : Nat
  ttl : Nat
  localPort : Nat
deriving DecidableEq, Repr

/-- Modelled from the spec: the defaults — version 4, port 123, a
timeout of a few seconds, TTL and local port left to the OS. -/
def defaultOptions : QueryOptions :=
  { version := 4, port := 123, timeout := 5 * nanoPerSec, ttl := 0, localPort := 0 }

/-- The network environment of one exchange against one host: whether
the host resolves, whether the socket can be opened, and the reply (its
arrival delay in nanoseconds after the send, and its payload), if any
arrives at all.  This stands for the real network, which the code only
observes through these outcomes. -/
structure Net where
  resolves : Bool
  socketOk : Bool
  reply : Option (Nat × List Nat)
deriving DecidableEq, Repr

/-- Modelled from the spec: the transport `exchange`.  Resolution
failure gives `HostUnresolvable`, bind failure `SocketError`; otherwise
one datagram is sent and exactly one reply awaited under the deadline
derived from the configured timeout — no reply, or a reply later than
the deadline, gives `Timeout`; a reply in time is returned together
with the local arrival instant T4, captured immediately. -/
def exchange (opts : QueryOptions) (net : Net) (now : Nat) :
    Except NtpError (List Nat × Nat) :=
  match net.resolves, net.socketOk, net.reply with
  | false, _, _ => Except.error NtpError.hostUnresolvable
  | true, false, _ => Except.error NtpError.socketError
  | true, true, none => Except.error NtpError.timeout
  | true, true, some (d, payload) =>
      if opts.timeout < d then Except.error NtpError.timeout
      else Except.ok (payload, now + d)

/-- Modelled from the spec: the query result (corrected current time,
clock offset, round-trip time, and the remaining reply fields). -/
structure Result where
  time : Int
  clockOffset : Int
  rtt : Int
  stratum : Nat
  leap : Nat
  poll : Nat
  precision : Nat
  referenceID : Nat
  rootDelay : Nat
  rootDispersion : Nat
  referenceTime : Nat
deriving DecidableEq, Repr

/-- Modelled from the spec: the query engine.  T1 is the current
instant at send, the transport exchange yields the reply payload and
T4, the payload is decoded, T2 and T3 are the reply's receive and
transmit fields, the calculator gives offset and RTT, and the result is
assembled with reported time = local now + offset; every transport or
codec error propagates unchanged, and no semantic field validation is
performed.  `queryDecode` is the stage after the transport returned:
decoding the payload and assembling the result from T1 = the send
instant and T4 = the arrival instant. -/
def queryDecode (payload : List Nat) (now arrival : Nat) : Except NtpError Result :=
  match decodeResponse payload with
  | Except.error e => Except.error e
  | Except.ok p =>
      let t1 := toNtpTime now
      let t4 := toNtpTime arrival
      let off := offset t1 p.receiveTime p.transmitTime t4
      Except.ok
        { time := (arrival : Int) + off
          clockOffset := off
          rtt := rtt t1 p.receiveTime p.transmitTime t4
          stratum := p.stratum
          leap := p.leap
          poll := p.poll
          precision := p.precision
          referenceID := p.referenceID
          rootDelay := ntpShortDuration p.rootDelay
          rootDispersion := ntpShortDuration p.rootDispersion
          referenceTime := p.refTime }

def query (opts : QueryOptions) (net : Net) (now : Nat) : Except NtpError Result :=
  match exchange opts net now with
  | Except.error e => Except.error e
  | Except.ok (payload, arrival) => queryDecode payload now arrival

/-- Modelled from the spec: the diagnostic facade `currentTime` — calls
`query` with the default configuration and keeps only the corrected
instant, propagating errors unchanged. -/
def currentTime (net : Net) (now : Nat) : Except NtpError Int :=
  match query defaultOptions net now with
  | Except.error e => Except.error e
  | Except.ok r => Except.ok r.time

/-- The stratum of a query outcome, when it succeeded. -/
def stratumOf (e : Except NtpError Result) : Option Nat :=
  match e with
  | Except.ok r => some r.stratum
  | Except.error _ => none

/-- The round-trip time of a query outcome, when it succeeded. -/
def rttOf (e : Except NtpError Result) : Option Int :=
  match e with
  | Except.ok r => some r.rtt
  | Except.error _ => none

/-- The network environment of the timeout witnesses: resolution and
socket succeed and no reply ever arrives. -/
def timeoutNet : Net :=
  { resolves := true, socketOk := true, reply := some (10 * nanoPerSec, []) }

/-- A 48-byte reply whose stratum byte is 17 (leap 0, version 4, mode 4,
all other fields zero). -/
def cexPayload : List Nat :=
  36 :: 17 :: List.replicate 46 0

/-- A network environment delivering `cexPayload` after 1000 ns. -/
def cexNet : Net :=
  { resolves := true, socketOk := true, reply := some (1000, cexPayload) }

/-- A 48-byte reply whose stratum byte is 2 (leap 0, version 4, mode 4,
all other fields zero). -/
def okPayload : List Nat :=
  36 :: 2 :: List.replicate 46 0

/-- A network environment delivering `okPayload` after 1000 ns. -/
def okNet : Net :=
  { resolves := true, socketOk := true, reply := some (1000, okPayload) }

/-- The result a query assembles from a reply payload `p` that arrived
`d` nanoseconds after a send at instant `now` (the success branch of
`query`, written out field by field). -/
def replyResult (now d : Nat) (p : List Nat) : Result :=
  { time := ((now + d : Nat) : Int) +
      offset (toNtpTime now) (get64 p 32) (get64 p 40) (toNtpTime (now + d))
    clockOffset := offset (toNtpTime now) (get64 p 32) (get64 p 40) (toNtpTime (now + d))
    rtt := rtt (toNtpTime now) (get64 p 32) (get64 p 40) (toNtpTime (now + d))
    stratum := byteAt p 1
    leap := byteAt p 0 / 64
    poll := byteAt p 2
    precision := byteAt p 3
    referenceID := get32 p 12
    rootDelay := ntpShortDuration (get32 p 4)
    rootDispersion := ntpShortDuration (get32 p 8)
    referenceTime := get64 p 16 }

/-! ## Helper lemmas -/

/-- `longFromInstant` in closed form when the seconds fit 32 bits. -/
lemma long_parts (v : Nat) (h : v / 1000000000 < 4294967296) :
    longFromInstant v =
      v / 1000000000 * 4294967296 + v % 1000000000 * 4294967296 / 1000000000 := by
  unfold longFromInstant nanoPerSec
  omega

/-- `instantFromLong` on a value split into seconds and fraction. -/
lemma instant_of_long_parts (S F : Nat) (hF : F < 4294967296) :
    instantFromLong (S * 4294967296 + F) = S * 1000000000 + F * 1000000000 / 4294967296 := by
  unfold instantFromLong nanoPerSec
  have h1 : (S * 4294967296 + F) / 4294967296 = S := by omega
  have h2 : (S * 4294967296 + F) % 4294967296 = F := by omega
  rw [h1, h2]

/-- Shifting an instant by `k` whole seconds shifts the decoded instant
of its long timestamp by exactly `k` seconds (the fractional correction
cancels). -/
lemma instant_toNtp_add (n k : Nat) (h : n / 1000000000 + k < 4294967296) :
    instantFromLong (longFromInstant (n + k * 1000000000)) =
      instantFromLong (longFromInstant n) + k * 1000000000 := by
  have hq : (n + k * 1000000000) / 1000000000 = n / 1000000000 + k := by omega
  have hm : (n + k * 1000000000) % 1000000000 = n % 1000000000 := by omega
  have hF : n % 1000000000 * 4294967296 / 1000000000 < 4294967296 := by omega
  rw [long_parts _ (by omega), long_parts n (by omega), hq, hm,
    instant_of_long_parts _ _ hF, instant_of_long_parts _ _ hF]
  ring

/-- `instantFromLong` is monotone. -/
lemma instantFromLong_mono (a b : Nat) (h : a ≤ b) :
    instantFromLong a ≤ instantFromLong b := by
  unfold instantFromLong nanoPerSec
  omega

/-- `longFromInstant` is monotone below the 32-bit seconds boundary. -/
lemma longFromInstant_mono (n m : Nat) (h : m / 1000000000 < 4294967296)
    (hnm : n ≤ m) : longFromInstant n ≤ longFromInstant m := by
  rw [long_parts n (by omega), long_parts m h]
  have h1 : n % 1000000000 * 4294967296 / 1000000000 < 4294967296 := by omega
  have h2 : m % 1000000000 * 4294967296 / 1000000000 < 4294967296 := by omega
  rcases Nat.lt_or_ge (n / 1000000000) (m / 1000000000) with hq | hq
  · omega
  · omega

/-- Floor division by two agrees with Euclidean division by two. -/
lemma fdiv_two (s : Int) : Int.fdiv s 2 = s / 2 :=
  Int.fdiv_eq_ediv s (by decide)

/-! ## Claim theorems -/

/-- Claim C1: the offset/RTT calculator is a pure function of the four
long timestamps with `offset = ((T2 - T1) + (T3 - T4)) / 2` (exact
half-duration: twice the offset is within one unit below the sum) and
`rtt = (T4 - T1) - (T3 - T2)`; for any instant `now`, with T1 = now,
T2 = now + 20 s, T3 = now + 21 s, T4 = now + 5 s the offset is exactly
+18 s. -/
theorem offset_rtt_formula :
    (∀ t1 t2 t3 t4 : Nat,
      rtt t1 t2 t3 t4 =
        ((instantFromLong t4 : Int) - (instantFromLong t1 : Int)) -
          ((instantFromLong t3 : Int) - (instantFromLong t2 : Int)) ∧
      2 * offset t1 t2 t3 t4 ≤
        ((instantFromLong t2 : Int) - (instantFromLong t1 : Int)) +
          ((instantFromLong t3 : Int) - (instantFromLong t4 : Int)) ∧
      ((instantFromLong t2 : Int) - (instantFromLong t1 : Int)) +
          ((instantFromLong t3 : Int) - (instantFromLong t4 : Int)) <
        2 * offset t1 t2 t3 t4 + 2) ∧
    (∀ now : Nat, now / 1000000000 + 105 < 4294967296 →
      offset (toNtpTime now) (toNtpTime (now + 20 * 1000000000))
          (toNtpTime (now + 21 * 1000000000)) (toNtpTime (now + 5 * 1000000000)) =
        18 * 1000000000) := by
  constructor
  · intro t1 t2 t3 t4
    refine ⟨rfl, ?_, ?_⟩ <;>
      · unfold offset
        rw [fdiv_two]
        omega
  · intro now h
    have e20 := instant_toNtp_add now 20 (by omega)
    have e21 := instant_toNtp_add now 21 (by omega)
    have e5 := instant_toNtp_add now 5 (by omega)
    unfold offset toNtpTime
    rw [e20, e21, e5, fdiv_two]
    push_cast
    omega

/-- Witness for C1 at now = 0. -/
theorem offset_rtt_formula_witness :
    offset (toNtpTime 0) (toNtpTime (0 + 20 * 1000000000))
        (toNtpTime (0 + 21 * 1000000000)) (toNtpTime (0 + 5 * 1000000000)) =
      18 * 1000000000 :=
  offset_rtt_formula.2 0 (by decide)

/-- Claim C2: when the sum `(T2 - T1) + (T3 - T4)` is odd, the halving
is floor division — twice the offset is the sum minus one, also for
negative sums (truncation toward negative infinity, not toward zero);
for any instant `now`, with T1 = now + 101 s, T2 = now + 102 s,
T3 = now + 103 s, T4 = now + 105 s the offset is exactly −0.5 s. -/
theorem offset_floor_negative :
    (∀ t1 t2 t3 t4 : Nat,
      (((instantFromLong t2 : Int) - (instantFromLong t1 : Int)) +
          ((instantFromLong t3 : Int) - (instantFromLong t4 : Int))) < 0 →
      (((instantFromLong t2 : Int) - (instantFromLong t1 : Int)) +
          ((instantFromLong t3 : Int) - (instantFromLong t4 : Int))) % 2 = 1 →
      2 * offset t1 t2 t3 t4 =
        (((instantFromLong t2 : Int) - (instantFromLong t1 : Int)) +
            ((instantFromLong t3 : Int) - (instantFromLong t4 : Int))) - 1) ∧
    (∀ now : Nat, now / 1000000000 + 105 < 4294967296 →
      offset (toNtpTime (now + 101 * 1000000000)) (toNtpTime (now + 102 * 1000000000))
          (toNtpTime (now + 103 * 1000000000)) (toNtpTime (now + 105 * 1000000000)) =
        -500000000) := by
  constructor
  · intro t1 t2 t3 t4 hneg hodd
    unfold offset
    rw [fdiv_two]
    omega
  · intro now h
    have e101 := instant_toNtp_add now 101 (by omega)
    have e102 := instant_toNtp_add now 102 (by omega)
    have e103 := instant_toNtp_add now 103 (by omega)
    have e105 := instant_toNtp_add now 105 (by omega)
    unfold offset toNtpTime
    rw [e101, e102, e103, e105, fdiv_two]
    push_cast
    omega

/-- Witness for C2 at now = 0. -/
theorem offset_floor_negative_witness :
    offset (toNtpTime (0 + 101 * 1000000000)) (toNtpTime (0 + 102 * 1000000000))
        (toNtpTime (0 + 103 * 1000000000)) (toNtpTime (0 + 105 * 1000000000)) =
      -500000000 :=
  offset_floor_negative.2 0 (by decide)

/-- Claim C3, counterexample: the long-timestamp round trip is not
exact on every 64-bit pattern — at x = 1 (one 1/2^32-second unit, below
one nanosecond) the decoded instant is the epoch itself and re-encoding
gives 0, not 1. -/
theorem long_roundtrip_counterexample :
    instantFromLong 1 = 0 ∧ longFromInstant (instantFromLong 1) ≠ 1 := by
  constructor
  · rfl
  · intro h
    simp [instantFromLong, longFromInstant, nanoPerSec] at h

/-- Claim C3, amended: the round trip `longFromInstant ∘
instantFromLong` is exact on every 64-bit pattern whose fraction's low
23 bits are zero (every multiple of a 1/512-second tick, which includes
all values verified by the repository's tests, also at and beyond the
32-bit seconds wraparound boundary). -/
theorem long_roundtrip_tick_exact :
    ∀ x : Nat, x < 18446744073709551616 → x % 8388608 = 0 →
      longFromInstant (instantFromLong x) = x := by
  intro x hx h
  unfold longFromInstant instantFromLong nanoPerSec
  omega

/-- Witness for the amended C3 at the three boundary values of the
repository's `TestLongConversion`. -/
theorem long_roundtrip_tick_exact_witness :
    longFromInstant (instantFromLong 0x1ff800000) = 0x1ff800000 ∧
    longFromInstant (instantFromLong 0x80000000ff800000) = 0x80000000ff800000 ∧
    longFromInstant (instantFromLong 0xffffffffff800000) = 0xffffffffff800000 :=
  ⟨long_roundtrip_tick_exact 0x1ff800000 (by decide) (by decide),
   long_roundtrip_tick_exact 0x80000000ff800000 (by decide) (by decide),
   long_roundtrip_tick_exact 0xffffffffff800000 (by decide) (by decide)⟩

/-- Claim C4, counterexample: the short-timestamp conversion does not
round to the nearest representable nanosecond — at input 1 (exactly
15258.789… ns) it yields 15258 ns, not the nearest value 15259 ns. -/
theorem short_duration_not_nearest :
    ntpShortDuration 1 = 15258 ∧ ntpShortDurationNearest 1 = 15259 ∧
    ntpShortDuration 1 ≠ ntpShortDurationNearest 1 := by
  refine ⟨rfl, rfl, ?_⟩
  intro h
  simp [ntpShortDuration, ntpShortDurationNearest, nanoPerSec] at h

/-- Claim C4, amended: the short-timestamp conversion truncates the
sub-nanosecond remainder downward, and is exact at every multiple of
1/512 second within the 32-bit range: the scaled result equals the
exact value `x / 65536` seconds in nanoseconds whenever 128 divides x,
and in particular 0x00008000 gives exactly 500 ms, 0x0000c000 exactly
750 ms, and 0x0000ff80 exactly one 1/512-s tick before one second. -/
theorem short_duration_exact_ticks :
    (∀ x : Nat, x < 4294967296 → x % 128 = 0 →
      ntpShortDuration x * 65536 = x * 1000000000) ∧
    ntpShortDuration 0x00008000 = 500000000 ∧
    ntpShortDuration 0x0000c000 = 750000000 ∧
    ntpShortDuration 0x0000ff80 = 1000000000 - 1953125 := by
  refine ⟨?_, by decide, by decide, by decide⟩
  intro x hx h
  unfold ntpShortDuration nanoPerSec
  omega

/-- Witness for the amended C4 at x = 0x8000. -/
theorem short_duration_exact_ticks_witness :
    ntpShortDuration 32768 * 65536 = 32768 * 1000000000 :=
  short_duration_exact_ticks.1 32768 (by decide) (by decide)

/-- Claim C5: the short-timestamp conversion truncates sub-nanosecond
remainders downward (its scaled value is the floor of the exact value)
over the whole 32-bit range; input 0x00000001 converts to exactly
15258 ns, 0xffff0000 to exactly 65535 s, and 0xffffff80 to 65536 s
minus one 1/512-s tick. -/
theorem short_duration_floor :
    (∀ x : Nat, x < 4294967296 →
      ntpShortDuration x * 65536 ≤ x * 1000000000 ∧
      x * 1000000000 < (ntpShortDuration x + 1) * 65536) ∧
    ntpShortDuration 0x00000001 = 15258 ∧
    ntpShortDuration 0xffff0000 = 65535 * 1000000000 ∧
    ntpShortDuration 0xffffff80 = 65536 * 1000000000 - 1953125 := by
  refine ⟨?_, by decide, by decide, by decide⟩
  intro x hx
  unfold ntpShortDuration nanoPerSec
  omega

/-- Witness for C5 at x = 1. -/
theorem short_duration_floor_witness :
    ntpShortDuration 1 * 65536 ≤ 1 * 1000000000 ∧
    1 * 1000000000 < (ntpShortDuration 1 + 1) * 65536 :=
  short_duration_floor.1 1 (by decide)

/-- Claim C6: `decodeResponse` fails with `MalformedPacket` on every
payload whose length is not exactly 48 bytes — in particular on every
shorter payload — and a packet is only ever produced from a 48-byte
payload; the decoder is a total function, so no input makes it read out
of bounds. -/
theorem decodeResponse_malformed :
    ∀ b : List Nat,
      (b.length ≠ 48 → decodeResponse b = Except.error NtpError.malformedPacket) ∧
      (∀ p, decodeResponse b = Except.ok p → b.length = 48) := by
  intro b
  constructor
  · intro hn
    unfold decodeResponse
    rw [if_neg hn]
  · intro p hp
    by_contra hn
    unfold decodeResponse at hp
    rw [if_neg hn] at hp
    exact Except.noConfusion hp

/-- Witness for C6 at the empty payload. -/
theorem decodeResponse_malformed_witness :
    decodeResponse [] = Except.error NtpError.malformedPacket :=
  (decodeResponse_malformed []).1 (by decide)

/-- Claim C7: whenever host resolution and the socket succeed but no
reply arrives within the deadline derived from the configured timeout
(which is what happens against any real host when the timeout is one
nanosecond), the query fails with `Timeout` and never produces a
result. -/
theorem query_timeout :
    ∀ (opts : QueryOptions) (net : Net) (now : Nat),
      net.resolves = true → net.socketOk = true →
      (∀ d p, net.reply = some (d, p) → opts.timeout < d) →
      query opts net now = Except.error NtpError.timeout := by
  intro opts net now hr hs ht
  obtain ⟨res, sock, rep⟩ := net
  subst hr
  subst hs
  cases rep with
  | none => rfl
  | some dp =>
      obtain ⟨d, p⟩ := dp
      have hd := ht d p rfl
      have hx : exchange opts ⟨true, true, some (d, p)⟩ now =
          Except.error NtpError.timeout := by
        show (if opts.timeout < d then Except.error NtpError.timeout
            else Except.ok (p, now + d) : Except NtpError (List Nat × Nat)) =
          Except.error NtpError.timeout
        rw [if_pos hd]
      unfold query
      rw [hx]

/-- Witness for C7: a one-nanosecond timeout against a host whose reply
takes ten seconds. -/
theorem query_timeout_witness :
    query { version := 4, port := 123, timeout := 1, ttl := 0, localPort := 0 }
        timeoutNet 0 = Except.error NtpError.timeout :=
  query_timeout _ timeoutNet 0 rfl rfl (fun d p h => by cases h; decide)

/-- The success branch of `query` computed in closed form. -/
lemma query_reply_ok (opts : QueryOptions) (now d : Nat) (p : List Nat)
    (hd : ¬ opts.timeout < d) (hl : p.length = 48) :
    query opts ⟨true, true, some (d, p)⟩ now = Except.ok (replyResult now d p) := by
  have hx : exchange opts ⟨true, true, some (d, p)⟩ now = Except.ok (p, now + d) := by
    show (if opts.timeout < d then Except.error NtpError.timeout
        else Except.ok (p, now + d) : Except NtpError (List Nat × Nat)) =
      Except.ok (p, now + d)
    rw [if_neg hd]
  have hdec : decodeResponse p = Except.ok
      { leap := byteAt p 0 / 64, version := byteAt p 0 / 8 % 8, mode := byteAt p 0 % 8,
        stratum := byteAt p 1, poll := byteAt p 2, precision := byteAt p 3,
        rootDelay := get32 p 4, rootDispersion := get32 p 8, referenceID := get32 p 12,
        refTime := get64 p 16, originTime := get64 p 24, receiveTime := get64 p 32,
        transmitTime := get64 p 40 } := by
    unfold decodeResponse
    rw [if_pos hl]
  unfold query
  rw [hx]
  show queryDecode p now (now + d) = Except.ok (replyResult now d p)
  unfold queryDecode
  rw [hdec]
  rfl

/-- Inversion of a successful query: the timeout was not exceeded, the
payload was exactly 48 bytes, and the result is `replyResult`. -/
lemma query_ok_inv (opts : QueryOptions) (net : Net) (now d : Nat) (p : List Nat)
    (r : Result) (hrep : net.reply = some (d, p))
    (hq : query opts net now = Except.ok r) :
    ¬ opts.timeout < d ∧ p.length = 48 ∧ r = replyResult now d p := by
  obtain ⟨res, sock, rep⟩ := net
  change rep = some (d, p) at hrep
  subst hrep
  cases res with
  | false => exact Except.noConfusion hq
  | true =>
    cases sock with
    | false => exact Except.noConfusion hq
    | true =>
      by_cases hto : opts.timeout < d
      · have hx : exchange opts ⟨true, true, some (d, p)⟩ now =
            Except.error NtpError.timeout := by
          show (if opts.timeout < d then Except.error NtpError.timeout
              else Except.ok (p, now + d) : Except NtpError (List Nat × Nat)) =
            Except.error NtpError.timeout
          rw [if_pos hto]
        unfold query at hq
        rw [hx] at hq
        exact Except.noConfusion hq
      · by_cases hl : p.length = 48
        · rw [query_reply_ok opts now d p hto hl] at hq
          injection hq with h
          exact ⟨hto, hl, h.symm⟩
        · have hx : exchange opts ⟨true, true, some (d, p)⟩ now =
              Except.ok (p, now + d) := by
            show (if opts.timeout < d then Except.error NtpError.timeout
                else Except.ok (p, now + d) : Except NtpError (List Nat × Nat)) =
              Except.ok (p, now + d)
            rw [if_neg hto]
          have hdec : decodeResponse p = Except.error NtpError.malformedPacket := by
            unfold decodeResponse
            rw [if_neg hl]
          unfold query at hq
          rw [hx] at hq
          change queryDecode p now (now + d) = Except.ok r at hq
          unfold queryDecode at hq
          rw [hdec] at hq
          exact Except.noConfusion hq

/-- Claim C8: `currentTime` calls `query` with the default
configuration and returns exactly the corrected instant of the query
result (reported time = local now + offset, the local now being the
reply arrival instant), discarding every other field, and it errors
exactly when the query errors. -/
theorem currentTime_projects_query :
    ∀ (net : Net) (now : Nat),
      (∀ e, query defaultOptions net now = Except.error e →
        currentTime net now = Except.error e) ∧
      (∀ r, query defaultOptions net now = Except.ok r →
        currentTime net now = Except.ok r.time) ∧
      (∀ r d p, net.reply = some (d, p) →
        query defaultOptions net now = Except.ok r →
        r.time = ((now + d : Nat) : Int) + r.clockOffset) := by
  intro net now
  refine ⟨?_, ?_, ?_⟩
  · intro e h
    unfold currentTime
    rw [h]
  · intro r h
    unfold currentTime
    rw [h]
  · intro r d p hrep hq
    obtain ⟨-, -, hr⟩ := query_ok_inv defaultOptions net now d p r hrep hq
    subst hr
    rfl

/-- Witness for C8: the error of the query propagates to
`currentTime` unchanged. -/
theorem currentTime_projects_query_witness :
    currentTime timeoutNet 0 = Except.error NtpError.timeout :=
  (currentTime_projects_query timeoutNet 0).1 NtpError.timeout (by rfl)

/-- Claim C9, counterexample: a successful query against a server
whose 48-byte reply carries stratum byte 17 returns stratum 17, which
is outside [1,16] — the engine performs no stratum validation. -/
theorem query_stratum_out_of_range :
    stratumOf (query defaultOptions cexNet 0) = some 17 ∧ ¬(17 ≤ 16) := by
  decide

/-- Claim C9, amended: a successful query passes the reply's fields
through without validation — the returned stratum is the reply's
stratum byte (hence lies in [1,16] exactly when the reply's does) and
the returned RTT is the four-timestamp estimate, with no sign
clamping. -/
theorem query_passthrough_bounds :
    ∀ (opts : QueryOptions) (net : Net) (now d : Nat) (p : List Nat),
      net.reply = some (d, p) →
      (∀ s, stratumOf (query opts net now) = some s →
        s = byteAt p 1 ∧ (1 ≤ byteAt p 1 ∧ byteAt p 1 ≤ 16 → 1 ≤ s ∧ s ≤ 16)) ∧
      (∀ q, rttOf (query opts net now) = some q →
        q = rtt (toNtpTime now) (get64 p 32) (get64 p 40) (toNtpTime (now + d))) := by
  intro opts net now d p hrep
  constructor
  · intro s hs
    cases hq : query opts net now with
    | error e =>
        rw [hq] at hs
        exact Option.noConfusion hs
    | ok r =>
        obtain ⟨-, -, hr⟩ := query_ok_inv opts net now d p r hrep hq
        subst hr
        rw [hq] at hs
        have hs' : byteAt p 1 = s := by
          have h : some (replyResult now d p).stratum = some s := hs
          injection h
        refine ⟨hs'.symm, ?_⟩
        intro hb
        omega
  · intro q hqr
    cases hq : query opts net now with
    | error e =>
        rw [hq] at hqr
        exact Option.noConfusion hqr
    | ok r =>
        obtain ⟨-, -, hr⟩ := query_ok_inv opts net now d p r hrep hq
        subst hr
        rw [hq] at hqr
        have h : some (replyResult now d p).rtt = some q := hqr
        injection h with h
        exact h.symm

/-- Witness for the amended C9: a reply with stratum byte 2 yields a
result with stratum 2, inside [1,16]. -/
theorem query_passthrough_bounds_witness :
    2 = byteAt okPayload 1 ∧
    (1 ≤ byteAt okPayload 1 ∧ byteAt okPayload 1 ≤ 16 → 1 ≤ 2 ∧ 2 ≤ 16) :=
  (query_passthrough_bounds defaultOptions okNet 0 1000 okPayload rfl).1 2 (by decide)

/-- Claim C10: within one successful exchange, under the spec's clock
assumptions stated on the wire values (the local clock only moves
forward, below the 32-bit seconds boundary; the server's receive
timestamp is not before the echoed origin; the server's transmit is
not before its receive), the four timestamps are ordered as instants:
T1 ≤ T2 ≤ T3 on the server side and T1 ≤ T4 on the local clock. -/
theorem exchange_ordering :
    ∀ (opts : QueryOptions) (net : Net) (now d : Nat) (p : List Nat),
      net.reply = some (d, p) →
      stratumOf (query opts net now) ≠ none →
      (now + d) / 1000000000 < 4294967296 →
      toNtpTime now ≤ get64 p 32 →
      get64 p 32 ≤ get64 p 40 →
      instantFromLong (toNtpTime now) ≤ instantFromLong (get64 p 32) ∧
      instantFromLong (get64 p 32) ≤ instantFromLong (get64 p 40) ∧
      toNtpTime now ≤ toNtpTime (now + d) ∧
      instantFromLong (toNtpTime now) ≤ instantFromLong (toNtpTime (now + d)) := by
  intro opts net now d p hrep hok hbound h12 h23
  have hmono : toNtpTime now ≤ toNtpTime (now + d) := by
    unfold toNtpTime
    exact longFromInstant_mono now (now + d) hbound (Nat.le_add_right now d)
  exact ⟨instantFromLong_mono _ _ h12, instantFromLong_mono _ _ h23, hmono,
    instantFromLong_mono _ _ hmono⟩

/-- Witness for C10 on a concrete successful exchange. -/
theorem exchange_ordering_witness :
    instantFromLong (toNtpTime 0) ≤ instantFromLong (get64 okPayload 32) ∧
    instantFromLong (get64 okPayload 32) ≤ instantFromLong (get64 okPayload 40) ∧
    toNtpTime 0 ≤ toNtpTime (0 + 1000) ∧
    instantFromLong (toNtpTime 0) ≤ instantFromLong (toNtpTime (0 + 1000)) :=
  exchange_ordering defaultOptions okNet 0 1000 okPayload rfl (by decide) (by decide)
    (by decide) (by decide)

end Ntp
